import Mathlib

/-!
Shallow embedding of `src/file/express.js` (a small Express file-conversion
server) and proofs about its orchestration logic: temp-file naming,
quality-profile resolution, ffmpeg argument construction, the process
timeout, and the `close`/`error` event handlers of the two media endpoints
`/transcode` and `/extract-audio`.

JavaScript template-literal interpolation of numbers (`${Date.now()}`)
renders the number in decimal; `natStr` below is that decimal rendering
for naturals. It is defined with explicit fuel (the same shape as core's
`Nat.toDigitsCore`) so that it reduces in the kernel and concrete
instances can be settled by `decide`.
-/

namespace FileConv

/-- The decimal digit character for `d < 10` (JS number-to-string rendering). -/
def digitChar (d : Nat) : Char := Char.ofNat (48 + d)

/-- Fuel-driven accumulator pass of decimal rendering: prepends the digits
of `n` to `acc`. -/
def natStrAux : Nat → Nat → List Char → List Char
  | 0, _, acc => acc
  | fuel + 1, n, acc =>
    if n < 10 then digitChar n :: acc
    else natStrAux fuel (n / 10) (digitChar (n % 10) :: acc)

/-- Decimal rendering of a natural number, as produced by a JS template
literal such as the one building temp file names. -/
def natStr (n : Nat) : String := ⟨natStrAux (n + 1) n []⟩

/-- Decoder used to prove `natStr` injective: reads a digit list back as a number. -/
def decodeDigits (l : List Char) : Nat :=
  l.foldl (fun a c => a * 10 + (c.toNat - 48)) 0

/-! ## Temp file naming (`writeTempFile` and the `outPath` allocations)

`writeTempFile` builds the name
`upload-${Date.now()}-${Math.floor(Math.random()*10000)}.${ext}` and joins
it with `os.tmpdir()`; both endpoints build the output path
`out-${Date.now()}-${Math.floor(Math.random()*10000)}.${format}` the same
way. The timestamp and the random draw are modelled as explicit inputs. -/

/-- Name built by `writeTempFile` (express.js line 41): timestamp, random
draw in `[0, 10000)`, and the extension taken from the original filename. -/
def tempUploadName (ts rand : Nat) (ext : String) : String :=
  "upload-" ++ natStr ts ++ "-" ++ natStr rand ++ "." ++ ext

/-- Name of the allocated output path (express.js lines 72 and 150). -/
def tempOutName (ts rand : Nat) (fmt : String) : String :=
  "out-" ++ natStr ts ++ "-" ++ natStr rand ++ "." ++ fmt

/-- `path.join(os.tmpdir(), name)` with the temp directory as a parameter. -/
def joinTmp (tmpDir name : String) : String := tmpDir ++ "/" ++ name

/-- One temp-file allocation event: the job it belongs to, the `Date.now()`
value and `Math.floor(Math.random()*10000)` draw observed at allocation
time, and the extension appended to the name. Two distinct jobs are
distinct allocations even when all observed values coincide. -/
structure TempAlloc where
  jobId : Nat
  tsMs : Nat
  rand : Nat
  ext : String
  deriving DecidableEq, Repr

/-- The input temp path `writeTempFile` returns for an allocation. -/
def uploadPathOf (tmpDir : String) (a : TempAlloc) : String :=
  joinTmp tmpDir (tempUploadName a.tsMs a.rand a.ext)

/-! ## Profile resolution (`resMap`, express.js lines 79-87)

`resMap` is a plain object literal, so the JS property access
`resMap[quality]` also finds members inherited from `Object.prototype`
("constructor", "toString", "hasOwnProperty", "__proto__", ...). Those
members are truthy (functions, or `Object.prototype` itself), so they
bypass the `|| resMap['720p']` fallback even though they are not
profiles; `res.h` / `res.br` on them are `undefined`. -/

/-- A resolved video profile: target height and video bitrate. -/
structure VideoProfile where
  h : Nat
  br : String
  deriving DecidableEq, Repr

/-- Result of the JS property access `resMap[q]`: an own data property
(one of the six presets), a truthy member inherited from
`Object.prototype` (not a profile), or `undefined`. -/
inductive Lookup where
  | profile (p : VideoProfile)
  | inherited
  | undefined
  deriving DecidableEq, Repr

/-- The member keys every plain object inherits from `Object.prototype`. -/
def protoKeys : List String :=
  ["constructor", "hasOwnProperty", "isPrototypeOf", "propertyIsEnumerable",
   "toLocaleString", "toString", "valueOf",
   "__defineGetter__", "__defineSetter__", "__lookupGetter__",
   "__lookupSetter__", "__proto__"]

/-- The property access `resMap[q]` on the `resMap` object literal,
including the prototype chain. -/
def resMap (q : String) : Lookup :=
  if q = "240p" then .profile ⟨240, "400k"⟩
  else if q = "360p" then .profile ⟨360, "800k"⟩
  else if q = "480p" then .profile ⟨480, "1500k"⟩
  else if q = "720p" then .profile ⟨720, "3000k"⟩
  else if q = "1080p" then .profile ⟨1080, "5000k"⟩
  else if q = "1440p" then .profile ⟨1440, "8000k"⟩
  else if q ∈ protoKeys then .inherited
  else .undefined

/-- `resMap[quality] || resMap['720p']` (express.js line 87): only an
`undefined` (falsy) lookup falls back to the 720p entry; a truthy
inherited member is kept as-is. -/
def resolveQuality (q : String) : Lookup :=
  match resMap q with
  | .undefined => resMap "720p"
  | r => r

/-- `res.h` on the resolution result: `undefined` (`none`) unless the
lookup produced a genuine profile. -/
def resH : Lookup → Option Nat
  | .profile p => some p.h
  | _ => none

/-- `res.br` on the resolution result. -/
def resBr : Lookup → Option String
  | .profile p => some p.br
  | _ => none

/-- `req.body.quality || '720p'` (express.js line 65). JS `||` also treats
the empty string as absent. -/
def requestQuality (q : Option String) : String :=
  match q with
  | none => "720p"
  | some s => if s = "" then "720p" else s

/-- `String.prototype.toLowerCase`, over the ASCII range (the recognised
format names are ASCII). Mapped over the character list directly so it
reduces in the kernel. -/
def toLowerStr (s : String) : String := ⟨s.data.map Char.toLower⟩

/-- `(req.body.format || 'mp3').toLowerCase()` (express.js line 146). -/
def requestFormat (q : Option String) : String :=
  toLowerStr (match q with
    | none => "mp3"
    | some s => if s = "" then "mp3" else s)

/-- `/transcode` hardcodes the output format (express.js line 64). -/
def transcodeFormat : String := "mp4"

/-! ## Argument builders -/

/-- One entry of the args array handed to `spawn`: a JS string, or the raw
`undefined` pushed by `args.push('-b:v', res.br)` when `res.br` is
`undefined`. -/
inductive Arg where
  | str (s : String)
  | undefined
  deriving DecidableEq, Repr

/-- Template-literal interpolation of a possibly-`undefined` number:
`undefined` renders as "undefined". -/
def jsNumStr : Option Nat → String
  | some n => natStr n
  | none => "undefined"

/-- A possibly-`undefined` string pushed as an argument. -/
def jsArg : Option String → Arg
  | some s => .str s
  | none => .undefined

/-- The ffmpeg argument vector built by `/transcode` (express.js lines
76-93), after resolving the quality selector through `resMap`. When the
selector hits an inherited `Object.prototype` member, `res.h`/`res.br`
are `undefined`: the scale filter reads "scale=-2:undefined" and a raw
`undefined` is pushed for the bitrate. -/
def transcodeArgs (inputPath outPath quality : String) : List Arg :=
  let r := resolveQuality quality
  [.str "-y", .str "-i", .str inputPath,
   .str "-vf", .str ("scale=-2:" ++ jsNumStr (resH r)),
   .str "-b:v", jsArg (resBr r),
   .str "-c:v", .str "libx264", .str "-preset", .str "medium",
   .str "-c:a", .str "aac", .str "-b:a", .str "128k",
   .str outPath]

/-- The ffmpeg argument vector built by `/extract-audio` (express.js
lines 153-157) for an already-normalised format string. -/
def extractArgs (fmt inputPath outPath : String) : List String :=
  let base := ["-y", "-i", inputPath, "-vn"]
  if fmt = "mp3" then base ++ ["-acodec", "libmp3lame", "-q:a", "2", outPath]
  else if fmt = "wav" then base ++ ["-acodec", "pcm_s16le", "-ar", "44100", "-ac", "2", outPath]
  else if fmt = "ogg" then base ++ ["-acodec", "libvorbis", "-q:a", "5", outPath]
  else base ++ ["-c:a", "copy", outPath]

/-- `path.parse(name).name` for a basename: the part before the last dot,
except that a lone leading dot does not start an extension. -/
def fileStem (s : String) : String :=
  match s.data.reverse.dropWhile (fun c => c ≠ '.') with
  | [] => s
  | _ :: rest => if rest.isEmpty then s else ⟨rest.reverse⟩

/-- `outName` (express.js lines 71 and 149): original filename stem plus
the output format's extension. Computed by both endpoints but never used. -/
def outName (originalname fmt : String) : String :=
  fileStem originalname ++ "." ++ fmt

/-! ## Process supervision

`/transcode` arms `setTimeout(.., 5*60*1000)` whose callback sets a
`timedOut` flag and calls `ff.kill()` (express.js lines 99-103);
`/extract-audio` registers no timer at all (lines 159-161). The race
between process exit and the timer is modelled by `supervise`: the process
either exits at a given instant with a given code, or never exits. A tie
at the deadline instant is resolved in favour of the exit. -/

/-- Timeout configuration of `/transcode`: five minutes, in milliseconds. -/
def transcodeTimeoutMs : Option Nat := some (5 * 60 * 1000)

/-- Timeout configuration of `/extract-audio`: no timer is ever armed. -/
def extractTimeoutMs : Option Nat := none

/-- Terminal outcome of supervising the spawned process. `killedByTimer`
corresponds to the timer callback having set `timedOut = true` and called
`ff.kill()`, so the subsequent `close` event runs with `timedOut` set. -/
inductive RunOutcome where
  | exited (code : Nat)
  | killedByTimer
  | neverEnds
  deriving DecidableEq, Repr

/-- Resolve the race between the (optional) timer and the process's own
exit behaviour. `exit = some (t, c)` means the process would exit at `t`
ms after start with code `c`; `exit = none` means it never exits on its
own. -/
def supervise (timeoutMs : Option Nat) (exit : Option (Nat × Nat)) : RunOutcome :=
  match timeoutMs, exit with
  | none, none => .neverEnds
  | none, some (_, c) => .exited c
  | some _, none => .killedByTimer
  | some deadline, some (t, c) => if t ≤ deadline then .exited c else .killedByTimer

/-! ## Responses and the endpoint event handlers

`Response` records exactly what the handlers put on the Express response:
the status, the `Content-Type` set via `res.type`, any extra headers (none
are ever set), and the body given to `res.send`. `HandlerOutcome` pairs
the response (if any is sent) with the list of paths passed to
`fs.unlinkSync` on that path, in order. -/

/-- Body passed to `res.send`: a file buffer or an error text. -/
inductive Body where
  | bytes (data : List Nat)
  | text (s : String)
  deriving DecidableEq, Repr

/-- What a handler writes to the HTTP response. -/
structure Response where
  status : Nat
  contentType : Option String
  headers : List (String × String)
  body : Body
  deriving DecidableEq, Repr

/-- A response carries a download filename when some header value contains
it (e.g. a Content-Disposition header). -/
def carriesFilename (r : Response) (name : String) : Prop :=
  ∃ p ∈ r.headers, ∃ pre post : String, p.2 = pre ++ name ++ post

/-- Effect of running one event handler: the response sent (`none` when
the handler finishes without responding), the temp paths unlinked before
the handler ended, and whether an uncaught exception escaped the
callback (`crashed`). -/
structure HandlerOutcome where
  response : Option Response
  released : List String
  crashed : Bool
  deriving DecidableEq, Repr

/-- Rendering of the `close` event's `code` argument (`number | null`) in
the template strings: `null` prints as "null". -/
def showCode (code : Option Nat) : String :=
  match code with
  | none => "null"
  | some c => natStr c

/-- The `/transcode` `close` handler (express.js lines 111-134). The
`const res` at line 87 (the quality profile) shadows the response
parameter for the whole `try` block, including this closure, so every
`res.status` / `res.type` / `res.send` here is a method call on the plain
profile object and throws a TypeError. Branches: on timeout the input is
unlinked and then `res.status` throws; on a non-zero (or null) code the
input is unlinked and then `res.status` throws; on code 0 the
`fs.readFileSync(outPath)` result does not matter — a successful read is
followed by a throwing `res.type` inside the `try`, a throwing read jumps
to the inner `catch`, and either way the inner `catch`'s `res.status`
throws before any unlink runs. No branch sends a response; every branch
ends in an uncaught TypeError. -/
def transcodeOnClose (inputPath outPath : String) (timedOut : Bool)
    (code : Option Nat) (readOutput : Option (List Nat)) : HandlerOutcome :=
  if timedOut then
    { response := none, released := [inputPath], crashed := true }
  else if code ≠ some 0 then
    { response := none, released := [inputPath], crashed := true }
  else
    { response := none, released := [], crashed := true }

/-- The `/transcode` `error` (spawn failure) handler alone (express.js
lines 106-109): it clears the timer and logs; it sends no response and
unlinks nothing. Node then still emits `close` (see
`transcodeSpawnFailure`). -/
def transcodeOnError : HandlerOutcome :=
  { response := none, released := [], crashed := false }

/-- The `/extract-audio` `close` handler (express.js lines 162-173). There
is no `timedOut` flag (no timer is armed) and no shadowing (`res` is the
real response). The `fs.readFileSync(outPath)` call is not wrapped in a
`try`: when the read throws, the exception escapes the event callback
uncaught, so no response is sent and nothing is unlinked. -/
def extractOnClose (inputPath outPath fmt : String)
    (code : Option Nat) (readOutput : Option (List Nat)) : HandlerOutcome :=
  if code ≠ some 0 then
    { response := some ⟨500, none, [],
        .text ("Audio extraction failed (ffmpeg error code " ++ showCode code ++ ")")⟩,
      released := [inputPath], crashed := false }
  else
    match readOutput with
    | some data =>
      { response := some ⟨200, some ("audio/" ++ fmt), [], .bytes data⟩,
        released := [inputPath, outPath], crashed := false }
    | none =>
      { response := none, released := [], crashed := true }

/-- The `/extract-audio` `error` (spawn failure) handler alone (express.js
line 161): log only; no response, no unlinks. -/
def extractOnError : HandlerOutcome :=
  { response := none, released := [], crashed := false }

/-- Full effect of a failed spawn on `/transcode`. Node documents that
`close` always emits after `error` when the child failed to spawn; the
`error` handler contributes nothing observable (it clears the timer and
logs), after which the close handler runs with `timedOut = false` and
`code = null`. -/
def transcodeSpawnFailure (inputPath outPath : String) : HandlerOutcome :=
  transcodeOnClose inputPath outPath false none none

/-- Full effect of a failed spawn on `/extract-audio`: the `error`
handler only logs, then the close handler runs with `code = null`. -/
def extractSpawnFailure (inputPath outPath fmt : String) : HandlerOutcome :=
  extractOnClose inputPath outPath fmt none none

/-! ## Helper lemmas about the decimal rendering -/

theorem natStrAux_fuel : ∀ n f1 f2 acc, n < f1 → n < f2 →
    natStrAux f1 n acc = natStrAux f2 n acc := by
  intro n
  induction n using Nat.strong_induction_on with
  | _ n ih =>
    intro f1 f2 acc h1 h2
    cases f1 with
    | zero => omega
    | succ fa =>
      cases f2 with
      | zero => omega
      | succ fb =>
        by_cases h : n < 10
        · simp [natStrAux, h]
        · simp only [natStrAux, if_neg h]
          exact ih (n / 10) (by omega) fa fb _ (by omega) (by omega)

theorem natStrAux_append : ∀ n f acc, n < f →
    natStrAux f n acc = natStrAux f n [] ++ acc := by
  intro n
  induction n using Nat.strong_induction_on with
  | _ n ih =>
    intro f acc hf
    cases f with
    | zero => omega
    | succ fa =>
      by_cases h : n < 10
      · simp [natStrAux, h]
      · simp only [natStrAux, if_neg h]
        rw [ih (n / 10) (by omega) fa _ (by omega),
          ih (n / 10) (by omega) fa [digitChar (n % 10)] (by omega), List.append_assoc]
        simp

theorem natStr_data_base (n : Nat) (h : n < 10) : (natStr n).data = [digitChar n] := by
  show natStrAux (n + 1) n [] = _
  cases n with
  | zero => simp [natStrAux]
  | succ m => simp [natStrAux, h]

theorem natStr_data_step (n : Nat) (h : ¬ n < 10) :
    (natStr n).data = (natStr (n / 10)).data ++ [digitChar (n % 10)] := by
  show natStrAux (n + 1) n [] = natStrAux (n / 10 + 1) (n / 10) [] ++ [digitChar (n % 10)]
  have h1 : natStrAux (n + 1) n [] = natStrAux n (n / 10) [digitChar (n % 10)] := by
    simp [natStrAux, h]
  rw [h1, natStrAux_append (n / 10) n _ (by omega),
    natStrAux_fuel (n / 10) n (n / 10 + 1) [] (by omega) (by omega)]

theorem toNat_digitChar (d : Nat) (hd : d < 10) : (digitChar d).toNat = 48 + d := by
  interval_cases d <;> decide

theorem mem_natStr (n : Nat) : ∀ c ∈ (natStr n).data, ∃ d, d < 10 ∧ c = digitChar d := by
  induction n using Nat.strong_induction_on with
  | _ n ih =>
    intro c hc
    by_cases h : n < 10
    · rw [natStr_data_base n h] at hc
      exact ⟨n, h, by simpa using hc⟩
    · rw [natStr_data_step n h] at hc
      rcases List.mem_append.mp hc with h1 | h2
      · exact ih (n / 10) (by omega) c h1
      · exact ⟨n % 10, by omega, by simpa using h2⟩

theorem decodeDigits_append_singleton (l : List Char) (c : Char) :
    decodeDigits (l ++ [c]) = decodeDigits l * 10 + (c.toNat - 48) := by
  simp [decodeDigits, List.foldl_append]

theorem decodeDigits_natStr (n : Nat) : decodeDigits (natStr n).data = n := by
  induction n using Nat.strong_induction_on with
  | _ n ih =>
    by_cases h : n < 10
    · rw [natStr_data_base n h]
      simp [decodeDigits, toNat_digitChar n h]
    · rw [natStr_data_step n h, decodeDigits_append_singleton,
        ih (n / 10) (by omega), toNat_digitChar (n % 10) (by omega)]
      omega

theorem natStr_all_digits (n : Nat) :
    ∀ c ∈ (natStr n).data, 48 ≤ c.toNat ∧ c.toNat ≤ 57 := by
  intro c hc
  obtain ⟨d, hd, rfl⟩ := mem_natStr n c hc
  rw [toNat_digitChar d hd]
  omega

theorem natStr_no_hyphen (n : Nat) : ('-' : Char) ∉ (natStr n).data := by
  intro h
  have h2 := natStr_all_digits n _ h
  have h3 : ('-' : Char).toNat = 45 := by decide
  omega

theorem natStr_no_dot (n : Nat) : ('.' : Char) ∉ (natStr n).data := by
  intro h
  have h2 := natStr_all_digits n _ h
  have h3 : ('.' : Char).toNat = 46 := by decide
  omega

theorem append_cons_cancel {c : Char} :
    ∀ (l1 l2 r1 r2 : List Char), c ∉ l1 → c ∉ l2 →
      l1 ++ c :: r1 = l2 ++ c :: r2 → l1 = l2 ∧ r1 = r2 := by
  intro l1
  induction l1 with
  | nil =>
    intro l2 r1 r2 _ h2 h
    cases l2 with
    | nil => simpa using h
    | cons y ys =>
      simp only [List.nil_append, List.cons_append, List.cons.injEq] at h
      exact absurd (by rw [h.1]; exact List.mem_cons_self y ys) h2
  | cons x xs ih =>
    intro l2 r1 r2 h1 h2 h
    cases l2 with
    | nil =>
      simp only [List.nil_append, List.cons_append, List.cons.injEq] at h
      exact absurd (by rw [← h.1]; exact List.mem_cons_self x xs) h1
    | cons y ys =>
      simp only [List.cons_append, List.cons.injEq] at h
      obtain ⟨rfl, htl⟩ := h
      have hx : c ∉ xs := fun hm => h1 (List.mem_cons_of_mem _ hm)
      have hy : c ∉ ys := fun hm => h2 (List.mem_cons_of_mem _ hm)
      obtain ⟨he, hr⟩ := ih ys r1 r2 hx hy htl
      exact ⟨by rw [he], hr⟩

/-- Injectivity of the body of a temp name in the (timestamp, random) pair:
the prefix tag and extension fixed, equal rendered names force equal draws. -/
theorem tagName_inj (pre : String) (ts1 r1 ts2 r2 : Nat) (ext : String)
    (h : pre ++ natStr ts1 ++ "-" ++ natStr r1 ++ "." ++ ext
       = pre ++ natStr ts2 ++ "-" ++ natStr r2 ++ "." ++ ext) :
    ts1 = ts2 ∧ r1 = r2 := by
  have hd := congrArg String.data h
  simp only [String.data_append, List.append_assoc] at hd
  have hmid := List.append_cancel_left hd
  simp only [List.cons_append, List.nil_append] at hmid
  obtain ⟨hA, hB⟩ :=
    append_cons_cancel _ _ _ _ (natStr_no_hyphen ts1) (natStr_no_hyphen ts2) hmid
  obtain ⟨hC, _⟩ :=
    append_cons_cancel _ _ _ _ (natStr_no_dot r1) (natStr_no_dot r2) hB
  constructor
  · have h1 := congrArg decodeDigits hA
    rwa [decodeDigits_natStr, decodeDigits_natStr] at h1
  · have h1 := congrArg decodeDigits hC
    rwa [decodeDigits_natStr, decodeDigits_natStr] at h1

/-- An `upload-` name never equals an `out-` name: the tags differ. -/
theorem uploadName_ne_outName (t1 r1 t2 r2 : Nat) (e1 e2 : String) :
    tempUploadName t1 r1 e1 ≠ tempOutName t2 r2 e2 := by
  intro h
  have hd := congrArg String.data h
  simp only [tempUploadName, tempOutName, String.data_append, List.append_assoc] at hd
  simp only [List.cons_append, List.nil_append, List.cons.injEq] at hd
  exact absurd hd.1 (by decide)

/-- `joinTmp` with a common directory is injective in the name. -/
theorem joinTmp_inj (tmpDir n1 n2 : String) (h : joinTmp tmpDir n1 = joinTmp tmpDir n2) :
    n1 = n2 := by
  have hd := congrArg String.data h
  simp only [joinTmp, String.data_append, List.append_assoc] at hd
  exact String.ext (List.append_cancel_left (List.append_cancel_left hd))

/-! ## The claims -/

/-- Claim C1 (as stated, counterexample): on a successful exit of the
`/transcode` encoder the close handler releases nothing (the shadowed
`res` throws before the unlinks), and on the timed-out outcome the output
temp path is not among the released paths — so neither outcome releases
both temp files. -/
theorem C1_cleanup_release_cex :
    (transcodeOnClose "/tmp/upload-1-2.avi" "/tmp/out-1-2.mp4" false (some 0) (some [7])).released
      = [] ∧
    "/tmp/out-1-2.mp4" ∉
      (transcodeOnClose "/tmp/upload-1-2.avi" "/tmp/out-1-2.mp4" true none none).released := by
  decide

/-- Claim C1 (amended): only `/extract-audio`'s fully successful path
releases both temp files. `/transcode` never releases its output temp
file: timeout, non-zero exit and spawn failure release only the input,
and on exit code 0 the shadowed `res` throws before the unlinks, so
neither file is released. `/extract-audio` releases only the input on
non-zero exit and on spawn failure, and nothing when reading the output
file throws. -/
theorem C1_cleanup_release_amended (i o fmt : String) (code : Option Nat)
    (r : Option (List Nat)) (data : List Nat) :
    (transcodeOnClose i o true code r).released = [i] ∧
    (code ≠ some 0 → (transcodeOnClose i o false code r).released = [i]) ∧
    (transcodeOnClose i o false (some 0) r).released = [] ∧
    (transcodeSpawnFailure i o).released = [i] ∧
    (code ≠ some 0 → (extractOnClose i o fmt code r).released = [i]) ∧
    (extractOnClose i o fmt (some 0) (some data)).released = [i, o] ∧
    (extractOnClose i o fmt (some 0) none).released = [] ∧
    (extractSpawnFailure i o fmt).released = [i] := by
  refine ⟨rfl, ?_, rfl, rfl, ?_, rfl, rfl, rfl⟩
  · intro hc
    simp [transcodeOnClose, hc]
  · intro hc
    simp [extractOnClose, hc]

/-- Witness for the amended C1 theorem at a concrete non-zero exit code. -/
theorem C1_cleanup_release_amended_witness :
    (transcodeOnClose "in.avi" "out.mp4" false (some 2) none).released = ["in.avi"] :=
  (C1_cleanup_release_amended "in.avi" "out.mp4" "mp3" (some 2) none []).2.1 (by decide)

/-- Claim C2 (as stated, counterexample): an `/extract-audio` job spawns
with no timer, so an encoder process that never exits is never terminated:
the supervision outcome is `neverEnds`, not a forced kill. -/
theorem C2_timeout_cex :
    supervise extractTimeoutMs none = RunOutcome.neverEnds ∧
    RunOutcome.neverEnds ≠ RunOutcome.killedByTimer := by
  decide

/-- Claim C2 (amended): only `/transcode` arms the deadline — a fixed
five minutes from process start — and a process still running past it is
forcibly killed, the close handler then taking the `timedOut` branch. But
no distinct timed-out failure result is delivered: the shadowed `res`
makes the reply throw after the input unlink, leaving an observable
outcome (no response, input released, uncaught TypeError) identical to
that of an exit-code failure. `/extract-audio` arms no timer, so a
process that never exits is never terminated. -/
theorem C2_timeout_amended (exitAt : Option (Nat × Nat)) (i o : String)
    (code : Option Nat) (r : Option (List Nat)) :
    transcodeTimeoutMs = some (5 * 60 * 1000) ∧
    ((∀ t c, exitAt = some (t, c) → 5 * 60 * 1000 < t) →
      supervise transcodeTimeoutMs exitAt = RunOutcome.killedByTimer) ∧
    transcodeOnClose i o true code r =
      { response := none, released := [i], crashed := true } ∧
    transcodeOnClose i o true code r = transcodeOnClose i o false (some 1) r ∧
    extractTimeoutMs = none ∧
    supervise extractTimeoutMs none = RunOutcome.neverEnds := by
  refine ⟨rfl, ?_, rfl, rfl, rfl, rfl⟩
  intro hlt
  cases exitAt with
  | none => rfl
  | some p =>
    obtain ⟨t, c⟩ := p
    have h1 := hlt t c rfl
    have h2 : ¬ t ≤ 5 * 60 * 1000 := by omega
    simp [supervise, transcodeTimeoutMs, h2]

/-- Witness for the amended C2 theorem: a process exiting just past the
deadline is killed by the timer. -/
theorem C2_timeout_amended_witness :
    supervise transcodeTimeoutMs (some (300001, 0)) = RunOutcome.killedByTimer :=
  (C2_timeout_amended (some (300001, 0)) "i" "o" none none).2.1
    (by intro t c h; simp only [Option.some.injEq, Prod.mk.injEq] at h; omega)

/-- Claim C3 (as stated, counterexample): two distinct jobs that observe
the same `Date.now()` millisecond and draw the same random suffix receive
identical temp paths, so `path(jobA) ≠ path(jobB)` does not always hold. -/
theorem C3_temp_path_unique_cex :
    (⟨0, 1700, 3, "mp4"⟩ : TempAlloc) ≠ ⟨1, 1700, 3, "mp4"⟩ ∧
    uploadPathOf "/tmp" ⟨0, 1700, 3, "mp4"⟩ = uploadPathOf "/tmp" ⟨1, 1700, 3, "mp4"⟩ := by
  exact ⟨by decide, rfl⟩

/-- Claim C3 (amended): allocated temp paths are distinct whenever the two
jobs observe different (millisecond timestamp, random suffix) draws (with
the same extension); an input (`upload-`) name moreover never collides
with an output (`out-`) name. But two jobs whose draws coincide receive
the same path, so distinctness is not unconditional. -/
theorem C3_temp_path_unique_amended (tmpDir : String) (a b : TempAlloc)
    (t1 r1 t2 r2 : Nat) (e1 e2 : String) :
    (a.ext = b.ext → a.tsMs ≠ b.tsMs ∨ a.rand ≠ b.rand →
      uploadPathOf tmpDir a ≠ uploadPathOf tmpDir b) ∧
    (a.tsMs = b.tsMs → a.rand = b.rand → a.ext = b.ext →
      uploadPathOf tmpDir a = uploadPathOf tmpDir b) ∧
    tempUploadName t1 r1 e1 ≠ tempOutName t2 r2 e2 := by
  refine ⟨?_, ?_, uploadName_ne_outName t1 r1 t2 r2 e1 e2⟩
  · intro hext hne h
    have hname := joinTmp_inj tmpDir _ _ h
    rw [tempUploadName, tempUploadName, hext] at hname
    obtain ⟨hts, hr⟩ := tagName_inj "upload-" _ _ _ _ b.ext hname
    cases hne with
    | inl h2 => exact h2 hts
    | inr h2 => exact h2 hr
  · intro h1 h2 h3
    unfold uploadPathOf tempUploadName
    rw [h1, h2, h3]

/-- Witness for the amended C3 theorem: same millisecond, different random
draw, distinct paths. -/
theorem C3_temp_path_unique_amended_witness :
    uploadPathOf "/tmp" ⟨0, 1700, 3, "mp4"⟩ ≠ uploadPathOf "/tmp" ⟨1, 1700, 4, "mp4"⟩ :=
  (C3_temp_path_unique_amended "/tmp" ⟨0, 1700, 3, "mp4"⟩ ⟨1, 1700, 4, "mp4"⟩
    0 0 0 0 "x" "y").1 (by decide) (by decide)

/-- Claim C4 (as stated, counterexample): the selector "constructor" is
not one of the six presets, yet it does not resolve to the 720p default:
the object lookup finds the truthy member inherited from
`Object.prototype`, which bypasses the `||` fallback and carries no
(height, bitrate) profile. -/
theorem C4_profile_resolution_cex :
    resolveQuality "constructor" = Lookup.inherited ∧
    resolveQuality "constructor" ≠ Lookup.profile ⟨720, "3000k"⟩ ∧
    resH (resolveQuality "constructor") = none := by
  decide

/-- Claim C4 (amended): each of the six presets resolves to exactly the
tabulated (height, bitrate) pair, and every other selector that is not a
member key inherited from `Object.prototype` — including a missing
quality field, which defaults to "720p" — resolves to the 720p default
(720, "3000k"). A prototype member key ("constructor", "toString",
"hasOwnProperty", ...) instead yields the truthy inherited member, whose
`h` and `br` are `undefined`. -/
theorem C4_profile_resolution_amended :
    resolveQuality "240p" = Lookup.profile ⟨240, "400k"⟩ ∧
    resolveQuality "360p" = Lookup.profile ⟨360, "800k"⟩ ∧
    resolveQuality "480p" = Lookup.profile ⟨480, "1500k"⟩ ∧
    resolveQuality "720p" = Lookup.profile ⟨720, "3000k"⟩ ∧
    resolveQuality "1080p" = Lookup.profile ⟨1080, "5000k"⟩ ∧
    resolveQuality "1440p" = Lookup.profile ⟨1440, "8000k"⟩ ∧
    (∀ s : String, s ≠ "240p" → s ≠ "360p" → s ≠ "480p" → s ≠ "720p" →
      s ≠ "1080p" → s ≠ "1440p" → s ∉ protoKeys →
      resolveQuality s = Lookup.profile ⟨720, "3000k"⟩) ∧
    resolveQuality (requestQuality none) = Lookup.profile ⟨720, "3000k"⟩ ∧
    (∀ s ∈ protoKeys, resolveQuality s = Lookup.inherited ∧
      resH (resolveQuality s) = none ∧ resBr (resolveQuality s) = none) := by
  refine ⟨rfl, rfl, rfl, rfl, rfl, rfl, ?_, rfl, ?_⟩
  · intro s h1 h2 h3 h4 h5 h6 hp
    simp [resolveQuality, resMap, h1, h2, h3, h4, h5, h6, hp]
  · intro s hs
    simp only [protoKeys, List.mem_cons, List.not_mem_nil, or_false] at hs
    rcases hs with rfl | rfl | rfl | rfl | rfl | rfl | rfl | rfl | rfl | rfl | rfl | rfl <;>
      exact ⟨rfl, rfl, rfl⟩

/-- Witness for the amended C4 theorem at an unrecognised,
non-prototype selector. -/
theorem C4_profile_resolution_amended_witness :
    resolveQuality "custom" = Lookup.profile ⟨720, "3000k"⟩ :=
  C4_profile_resolution_amended.2.2.2.2.2.2.1 "custom" (by decide) (by decide)
    (by decide) (by decide) (by decide) (by decide) (by decide)

/-- Claim C5 (as stated, counterexample): at the selector "constructor"
the built vector is not of the claimed all-string shape with a resolved
profile's height and bitrate: the scale filter reads
"scale=-2:undefined" and the bitrate slot holds a raw `undefined`. -/
theorem C5_transcode_args_cex :
    transcodeArgs "in.avi" "out.mp4" "constructor" =
      [Arg.str "-y", Arg.str "-i", Arg.str "in.avi", Arg.str "-vf",
       Arg.str "scale=-2:undefined", Arg.str "-b:v", Arg.undefined,
       Arg.str "-c:v", Arg.str "libx264", Arg.str "-preset", Arg.str "medium",
       Arg.str "-c:a", Arg.str "aac", Arg.str "-b:a", Arg.str "128k",
       Arg.str "out.mp4"] ∧
    Arg.undefined ∈ transcodeArgs "in.avi" "out.mp4" "constructor" := by
  decide

/-- Claim C5 (amended): for every transcode job whose selector resolves
to a genuine profile (height h, bitrate br) — the six presets and every
non-prototype-key selector, which falls back to 720p — the argument
vector is exactly the fixed fifteen-element list; preset "480p" yields
height 480 and bitrate "1500k"; and the output name always carries the
hardcoded ".mp4" extension regardless of the input container. At an
`Object.prototype` member key the vector instead carries
"scale=-2:undefined" and a raw `undefined` bitrate. -/
theorem C5_transcode_args_amended (i o q : String) (p : VideoProfile) (ts r : Nat)
    (hq : resolveQuality q = Lookup.profile p) :
    transcodeArgs i o q =
      [Arg.str "-y", Arg.str "-i", Arg.str i, Arg.str "-vf",
       Arg.str ("scale=-2:" ++ natStr p.h), Arg.str "-b:v", Arg.str p.br,
       Arg.str "-c:v", Arg.str "libx264", Arg.str "-preset", Arg.str "medium",
       Arg.str "-c:a", Arg.str "aac", Arg.str "-b:a", Arg.str "128k",
       Arg.str o] ∧
    transcodeArgs i o "480p" =
      [Arg.str "-y", Arg.str "-i", Arg.str i, Arg.str "-vf",
       Arg.str "scale=-2:480", Arg.str "-b:v", Arg.str "1500k",
       Arg.str "-c:v", Arg.str "libx264", Arg.str "-preset", Arg.str "medium",
       Arg.str "-c:a", Arg.str "aac", Arg.str "-b:a", Arg.str "128k",
       Arg.str o] ∧
    (∀ s ∈ protoKeys, Arg.undefined ∈ transcodeArgs i o s) ∧
    transcodeFormat = "mp4" ∧
    tempOutName ts r transcodeFormat =
      "out-" ++ natStr ts ++ "-" ++ natStr r ++ ".mp4" := by
  refine ⟨?_, rfl, ?_, rfl, ?_⟩
  · simp [transcodeArgs, hq, resH, resBr, jsNumStr, jsArg]
  · intro s hs
    simp only [protoKeys, List.mem_cons, List.not_mem_nil, or_false] at hs
    rcases hs with rfl | rfl | rfl | rfl | rfl | rfl | rfl | rfl | rfl | rfl | rfl | rfl <;>
      simp [transcodeArgs, resolveQuality, resMap, protoKeys, resH, resBr, jsNumStr, jsArg]
  · unfold tempOutName transcodeFormat
    rw [String.append_assoc]
    rfl

/-- Witness for the amended C5 theorem at preset "480p". -/
theorem C5_transcode_args_amended_witness :
    transcodeArgs "in.avi" "out.mp4" "480p" =
      [Arg.str "-y", Arg.str "-i", Arg.str "in.avi", Arg.str "-vf",
       Arg.str "scale=-2:480", Arg.str "-b:v", Arg.str "1500k",
       Arg.str "-c:v", Arg.str "libx264", Arg.str "-preset", Arg.str "medium",
       Arg.str "-c:a", Arg.str "aac", Arg.str "-b:a", Arg.str "128k",
       Arg.str "out.mp4"] :=
  (C5_transcode_args_amended "in.avi" "out.mp4" "480p" ⟨480, "1500k"⟩ 0 0
    (by decide)).1

/-- Claim C6: the `/extract-audio` argument vector always strips the video
stream ("-vn") and then re-encodes per target — mp3 via libmp3lame with
quality factor 2, wav via pcm_s16le at 44100 Hz with 2 channels, ogg via
libvorbis with quality factor 5 — while every other target yields the
stream-copy instruction "-c:a copy" and no re-encode parameters. -/
theorem C6_extract_args (i o : String) :
    extractArgs "mp3" i o =
      ["-y", "-i", i, "-vn", "-acodec", "libmp3lame", "-q:a", "2", o] ∧
    extractArgs "wav" i o =
      ["-y", "-i", i, "-vn", "-acodec", "pcm_s16le", "-ar", "44100", "-ac", "2", o] ∧
    extractArgs "ogg" i o =
      ["-y", "-i", i, "-vn", "-acodec", "libvorbis", "-q:a", "5", o] ∧
    (∀ fmt : String, fmt ≠ "mp3" → fmt ≠ "wav" → fmt ≠ "ogg" →
      extractArgs fmt i o = ["-y", "-i", i, "-vn", "-c:a", "copy", o]) := by
  refine ⟨rfl, rfl, rfl, ?_⟩
  intro fmt h1 h2 h3
  simp [extractArgs, h1, h2, h3]

/-- Witness for C6 at an unrecognised target format. -/
theorem C6_extract_args_witness :
    extractArgs "flac" "in.mkv" "out.flac" =
      ["-y", "-i", "in.mkv", "-vn", "-c:a", "copy", "out.flac"] :=
  (C6_extract_args "in.mkv" "out.flac").2.2.2 "flac" (by decide) (by decide) (by decide)

/-- Claim C7 (as stated, counterexample): when the `/transcode` encoder
exits with code 1, the input temp file is removed but no failure result
carrying the code ever reaches the caller — the shadowed `res` makes the
reply throw, and the handler ends in an uncaught TypeError. -/
theorem C7_nonzero_exit_cex :
    (transcodeOnClose "in.avi" "out.mp4" false (some 1) none).response = none ∧
    (transcodeOnClose "in.avi" "out.mp4" false (some 1) none).released = ["in.avi"] ∧
    (transcodeOnClose "in.avi" "out.mp4" false (some 1) none).crashed = true := by
  decide

/-- Claim C7 (amended): on a non-zero (or null) exit code with no timeout,
both endpoints remove the input temp file and return no output bytes;
`/extract-audio`'s caller receives a 500 failure whose text carries the
exit code, but `/transcode`'s caller receives nothing — the shadowed
`res` throws after the unlink. -/
theorem C7_nonzero_exit_amended (i o fmt : String) (code : Option Nat)
    (r : Option (List Nat)) (hc : code ≠ some 0) :
    transcodeOnClose i o false code r =
      { response := none, released := [i], crashed := true } ∧
    extractOnClose i o fmt code r =
      { response := some ⟨500, none, [],
          .text ("Audio extraction failed (ffmpeg error code " ++ showCode code ++ ")")⟩,
        released := [i], crashed := false } := by
  constructor
  · simp [transcodeOnClose, hc]
  · simp [extractOnClose, hc]

/-- Witness for the amended C7 theorem at exit code 1. -/
theorem C7_nonzero_exit_amended_witness :
    extractOnClose "in.mp4" "out.mp3" "mp3" (some 1) none =
      { response := some ⟨500, none, [],
          .text "Audio extraction failed (ffmpeg error code 1)"⟩,
        released := ["in.mp4"], crashed := false } :=
  (C7_nonzero_exit_amended "in.mp4" "out.mp3" "mp3" (some 1) none (by decide)).2

/-- Claim C8 (as stated, counterexample): a `/transcode` spawn failure
(the `error` event followed by the documented `close` with code null)
delivers no failure result to the caller: no response is sent and the
close handler crashes at the shadowed `res`. -/
theorem C8_spawn_failure_cex :
    (transcodeSpawnFailure "in.avi" "out.mp4").response = none ∧
    (transcodeSpawnFailure "in.avi" "out.mp4").crashed = true := by
  decide

/-- Claim C8 (amended): on a spawn failure no process runs; the `error`
handlers only log (clearing `/transcode`'s timer), but Node then emits
`close` with code null, whose handler unlinks the input temp file on both
endpoints. `/extract-audio`'s caller receives a 500 failure carrying
"ffmpeg error code null"; `/transcode`'s caller receives nothing — the
shadowed `res` makes the reply throw. -/
theorem C8_spawn_failure_amended (i o fmt : String) :
    transcodeOnError = { response := none, released := [], crashed := false } ∧
    extractOnError = { response := none, released := [], crashed := false } ∧
    transcodeSpawnFailure i o =
      { response := none, released := [i], crashed := true } ∧
    extractSpawnFailure i o fmt =
      { response := some ⟨500, none, [],
          .text "Audio extraction failed (ffmpeg error code null)"⟩,
        released := [i], crashed := false } :=
  ⟨rfl, rfl, rfl, rfl⟩

/-- Claim C9 (as stated, counterexample): on a successful exit
`/transcode` sends nothing at all (the shadowed `res` throws before
`res.type`), and `/extract-audio`'s successful response, while carrying
"audio/mp3" and the bytes, carries nothing with the original filename's
stem and new extension ("movie.mp3"). -/
theorem C9_success_result_cex :
    (transcodeOnClose "/tmp/up.avi" "/tmp/o.mp4" false (some 0) (some [7])).response = none ∧
    (extractOnClose "/tmp/up.mp4" "/tmp/o.mp3" "mp3" (some 0) (some [7])).response =
      some ⟨200, some "audio/mp3", [], Body.bytes [7]⟩ ∧
    outName "movie.mp4" "mp3" = "movie.mp3" ∧
    ¬ carriesFilename ⟨200, some "audio/mp3", [], Body.bytes [7]⟩ "movie.mp3" := by
  refine ⟨rfl, rfl, rfl, ?_⟩
  rintro ⟨p, hp, -⟩
  exact absurd hp (List.not_mem_nil p)

/-- Claim C9 (amended): on exit code 0, `/extract-audio` reads the output
file fully and replies with its bytes under content type
"audio/" ++ fmt, releasing both temp files; the name preserving the
original filename's stem with the new extension (`outName`) is computed
but never attached to the response. `/transcode`, however, delivers no
result at all on exit code 0: the shadowed `res` throws before the
response and before the unlinks, so nothing is released. -/
theorem C9_success_result_amended (i o fmt orig : String) (data : List Nat) :
    transcodeOnClose i o false (some 0) (some data) =
      { response := none, released := [], crashed := true } ∧
    extractOnClose i o fmt (some 0) (some data) =
      { response := some ⟨200, some ("audio/" ++ fmt), [], .bytes data⟩,
        released := [i, o], crashed := false } ∧
    outName orig fmt = fileStem orig ++ "." ++ fmt ∧
    (∀ resp : Response,
      (extractOnClose i o fmt (some 0) (some data)).response = some resp →
      ¬ carriesFilename resp (outName orig fmt)) := by
  refine ⟨rfl, rfl, rfl, ?_⟩
  intro resp hresp
  have h2 : resp = ⟨200, some ("audio/" ++ fmt), [], .bytes data⟩ := by
    simpa [extractOnClose] using hresp.symm
  subst h2
  rintro ⟨p, hp, -⟩
  exact absurd hp (List.not_mem_nil p)

/-- Witness for the amended C9 theorem at a concrete job. -/
theorem C9_success_result_amended_witness :
    ¬ carriesFilename ⟨200, some "audio/mp3", [], Body.bytes [7]⟩
      (outName "movie.mp4" "mp3") :=
  (C9_success_result_amended "/tmp/up.mp4" "/tmp/o.mp3" "mp3" "movie.mp4" [7]).2.2.2
    ⟨200, some "audio/mp3", [], Body.bytes [7]⟩ rfl

/-- Claim C10: a missing format defaults to "mp3", the format string is
lowercased before matching, and hence the argument selection and the
`audio/<format>` content type are case-insensitive in the requested
format. -/
theorem C10_format_default_case (s s1 s2 i o : String)
    (hs : s ≠ "") (h1 : s1 ≠ "") (h2 : s2 ≠ "")
    (hlow : toLowerStr s1 = toLowerStr s2) :
    requestFormat none = "mp3" ∧
    requestFormat (some s) = toLowerStr s ∧
    requestFormat (some s1) = requestFormat (some s2) ∧
    extractArgs (requestFormat (some s1)) i o
      = extractArgs (requestFormat (some s2)) i o ∧
    "audio/" ++ requestFormat (some s1) = "audio/" ++ requestFormat (some s2) := by
  have hf : ∀ t : String, t ≠ "" → requestFormat (some t) = toLowerStr t := by
    intro t ht
    simp [requestFormat, ht]
  have heq : requestFormat (some s1) = requestFormat (some s2) := by
    rw [hf s1 h1, hf s2 h2, hlow]
  exact ⟨by decide, hf s hs, heq, by rw [heq], by rw [heq]⟩

/-- Witness for C10: "MP3" and "mp3" select the same arguments. -/
theorem C10_format_default_case_witness :
    requestFormat (some "MP3") = requestFormat (some "mp3") :=
  (C10_format_default_case "wav" "MP3" "mp3" "i" "o"
    (by decide) (by decide) (by decide) (by decide)).2.2.1

end FileConv
